import Mathlib

/-!
Verification of the exchange-rate / market / trip logic of
`src/streamlit_app.py` (a Streamlit dashboard gluing an LLM, a weather API,
an exchange-rate API and a stock-index provider).

Modelling conventions (shallow embedding):
* Parsed JSON values are modelled by the inductive `Json`; a Python dict is
  an association list `Jdict` (keys unique in every payload the program
  handles, so first-match lookup models `dict.get`).  JSON numbers are
  modelled as rationals: the program only carries them through, it never
  computes with them.
* The transport layer (`requests.get`) is abstracted by `HttpOutcome`:
  either the request raised a `RequestException`, or a `Response` arrived
  carrying a status code, a body text, and the result of attempting to
  parse that body as JSON (`none` models `response.json()` raising
  `ValueError`).
* Strings are ASCII in all the data this program handles; Python's
  `str.strip` / `str.split()` / `str.isupper` are modelled with that
  character range in mind.
-/

inductive Json where
  | null
  | bool (b : Bool)
  | num (q : ℚ)
  | str (s : String)
  | arr (elems : List Json)
  | obj (fields : List (String × Json))

/-- A parsed Python dict with `Json` values. -/
abbrev Jdict := List (String × Json)

/-- `dictGet? d k` models Python `d.get(k)` (absent key gives `None`). -/
def dictGet? (d : Jdict) (k : String) : Option Json :=
  (d.find? (fun p => p.1 = k)).map Prod.snd

/-- `dictContains d k` models Python `k in d`. -/
def dictContains (d : Jdict) (k : String) : Bool :=
  (d.find? (fun p => p.1 = k)).isSome

/-- `Json.isStr j s` is true iff `j` is exactly the JSON string `s`; it models
the Python comparison `j == s` for a string literal `s` (any non-string JSON
value compares unequal to a string in Python). -/
def Json.isStr (j : Json) (s : String) : Bool :=
  match j with
  | .str t => t = s
  | _ => false

/-- Python `str.strip()` with no argument (ASCII whitespace range), modelled
on the underlying character list: drop whitespace from both ends. -/
def pyStrip (s : String) : String :=
  ⟨((s.data.dropWhile Char.isWhitespace).reverse.dropWhile Char.isWhitespace).reverse⟩

/-- An HTTP response as seen by the program: `requests.Response` restricted to
the three things `get_exchange_rates` looks at — `status_code`, `text`, and
what `.json()` would give (`none` models `ValueError`). -/
structure Response where
  status_code : Nat
  text : String
  jsonParse : Option Jdict

/-- Behaviour of the transport layer for one `requests.get` call. -/
inductive HttpOutcome where
  | exception
  | response (r : Response)

/--
`get_exchange_rates` from `src/streamlit_app.py` lines 76–98, as a function of
the transport outcome.  Source:

    try:
        response = requests.get(url, timeout=10)
    except requests.exceptions.RequestException:
        return {"error": "Network error while calling ExchangeRate API"}
    if response.status_code != 200:
        return {"error": f"HTTP error {response.status_code}"}
    if not response.text.strip():
        return {"error": "Empty response from ExchangeRate API"}
    try:
        data = response.json()
    except ValueError:
        return {"error": "Non-JSON response from ExchangeRate API"}
    if data.get("result") != "success":
        return {"error": data.get("error-type", "Unknown API error")}
    return data
-/
def get_exchange_rates (o : HttpOutcome) : Jdict :=
  match o with
  | .exception => [("error", Json.str "Network error while calling ExchangeRate API")]
  | .response r =>
    if r.status_code ≠ 200 then
      [("error", Json.str ("HTTP error " ++ toString r.status_code))]
    else if pyStrip r.text = "" then
      [("error", Json.str "Empty response from ExchangeRate API")]
    else
      match r.jsonParse with
      | none => [("error", Json.str "Non-JSON response from ExchangeRate API")]
      | some data =>
        if ((dictGet? data "result").map (fun j => j.isStr "success")).getD false = false then
          [("error", (dictGet? data "error-type").getD (Json.str "Unknown API error"))]
        else
          data

/-- The spec's failure taxonomy for exchange-rate retrieval (§4.1). -/
inductive RateFailure where
  | NetworkError
  | HttpError (status : Nat)
  | EmptyResponse
  | MalformedJson
  | ApiError (message : Json)

/-- The exact dict `get_exchange_rates` returns to encode each spec-level
failure (the source has no tagged type; failures are `{"error": ...}` dicts
distinguished by their message). -/
def encodeFailure : RateFailure → Jdict
  | .NetworkError => [("error", Json.str "Network error while calling ExchangeRate API")]
  | .HttpError s => [("error", Json.str ("HTTP error " ++ toString s))]
  | .EmptyResponse => [("error", Json.str "Empty response from ExchangeRate API")]
  | .MalformedJson => [("error", Json.str "Non-JSON response from ExchangeRate API")]
  | .ApiError m => [("error", m)]

/-- The inspection steps of `get_exchange_rates`, in program order. -/
inductive FetchStep where
  | checkStatus
  | checkEmpty
  | parseBody
  | checkResultField
deriving DecidableEq

/-- The ordered list of inspection steps `get_exchange_rates` actually
executes on a given transport outcome, read off the source control flow:
no step runs after a `return`, and on an exception no response exists. -/
def exchangeTrace (o : HttpOutcome) : List FetchStep :=
  match o with
  | .exception => []
  | .response r =>
    FetchStep.checkStatus ::
      (if r.status_code ≠ 200 then []
       else FetchStep.checkEmpty ::
         (if pyStrip r.text = "" then []
          else FetchStep.parseBody ::
            (match r.jsonParse with
             | none => []
             | some _ => [FetchStep.checkResultField])))

/-- Helper for `pySplit`: walk the characters, accumulating the current token
in reverse; whitespace ends the token (empty tokens are not produced). -/
def splitWsAux : List Char → List Char → List (List Char)
  | [], acc => if acc = [] then [] else [acc.reverse]
  | c :: rest, acc =>
    if c.isWhitespace then
      if acc = [] then splitWsAux rest []
      else acc.reverse :: splitWsAux rest []
    else splitWsAux rest (c :: acc)

/-- Python `str.split()` with no argument: split on runs of whitespace,
producing no empty pieces. -/
def pySplit (s : String) : List String :=
  (splitWsAux s.data []).map (fun cs => ⟨cs⟩)

/-- Python `str.isupper()` (ASCII range): true iff the string has at least one
cased character and no lowercase character.  Note this is weaker than "all
characters are uppercase letters": digits and punctuation are uncased, so
e.g. `"QQ1"` satisfies `isupper`. -/
def pyIsUpper (s : String) : Bool :=
  s.data.any (fun c => c.isUpper || c.isLower) && s.data.all (fun c => !c.isLower)

/--
Currency-code extraction from the market flow, `src/streamlit_app.py`
lines 192–195:

    currency = next(
        (w for w in info.split() if len(w) == 3 and w.isupper()),
        None
    )
-/
def extractCurrency (info : String) : Option String :=
  (pySplit info).find? (fun w => w.length == 3 && pyIsUpper w)

/-- The extraction contract as the spec (§4.2) words it: the first
whitespace-delimited token that is exactly 3 characters long and consists
entirely of uppercase letters.  Kept separate from `extractCurrency` (the
source behaviour) to compare the two. -/
def specExtractCurrency (info : String) : Option String :=
  (pySplit info).find? (fun w => w.length == 3 && w.data.all Char.isUpper)

/-- What the exchange-rate section of the market flow renders once it holds
the dict returned by `get_exchange_rates` (`src/streamlit_app.py`
lines 200–208):

    if "error" in rates:
        st.error(f"Exchange API Error: {rates['error']}")
    else:
        for cur in ["USD", "INR", "GBP", "EUR"]:
            st.write(f"1 {currency} → {rates['conversion_rates'].get(cur)} {cur}")

`apiError v` is the `st.error` branch showing `v = rates["error"]`;
`rates rows` shows, per hardcoded target currency, the looked-up rate;
`crashKeyError` models the unhandled `KeyError` raised by
`rates['conversion_rates']` when the key is absent, and `crashAttrError` the
unhandled `AttributeError` of `.get` when that value is not a dict. -/
inductive ExchangePanel where
  | apiError (msg : Json)
  | rates (rows : List (String × Option Json))
  | crashKeyError (key : String)
  | crashAttrError

def showExchangePanel (rates : Jdict) : ExchangePanel :=
  if dictContains rates "error" then
    .apiError ((dictGet? rates "error").getD .null)
  else
    match dictGet? rates "conversion_rates" with
    | none => .crashKeyError "conversion_rates"
    | some (.obj cr) =>
        .rates (["USD", "INR", "GBP", "EUR"].map (fun cur => (cur, dictGet? cr cur)))
    | some _ => .crashAttrError

/-- Static country-to-ticker table of the market flow
(`src/streamlit_app.py` lines 210–218). -/
def index_map : List (String × String) :=
  [("Japan", "^N225"),
   ("India", "^BSESN"),
   ("United States", "^GSPC"),
   ("US", "^GSPC"),
   ("UK", "^FTSE"),
   ("China", "000001.SS"),
   ("South Korea", "^KS11")]

/-- `index_map.get(country)` (`src/streamlit_app.py` line 220). -/
def tickerLookup (country : String) : Option String :=
  (index_map.find? (fun p => p.1 = country)).map Prod.snd

/-- Inputs and external behaviours the market flow depends on: the two
credential strings, the country typed by the user, the LLM's prose answer
(`llm_response` output), and the transport behaviour of the single
exchange-rate call. -/
structure MarketEnv where
  groq_key : String
  exchange_key : String
  country : String
  llmInfo : String
  exchangeOutcome : HttpOutcome

/-- Observable outcome of one market-flow run that reached the end of the
script: whether `get_exchange_rates` was called, what the exchange section
rendered (`none` when the currency extraction found nothing and the section
was skipped), and which ticker the stock section fetched (`none` means the
`if ticker:` guard was false and the section was skipped). -/
structure MarketRun where
  calledExchange : Bool
  panel : Option ExchangePanel
  stockTicker : Option String

/-- `panelCrashes p` is true iff rendering `p` raises an unhandled exception
(the `KeyError`/`AttributeError` of line 207), which terminates the script
run before any later line executes. -/
def panelCrashes (p : ExchangePanel) : Bool :=
  match p with
  | .crashKeyError _ => true
  | .crashAttrError => true
  | _ => false

/-- Result of one market-flow button click: the missing-credentials error,
an abort (an unhandled exception in the exchange section killed the run, so
the stock section and the HQ link never execute), or a completed run. -/
inductive MarketOutcome where
  | credentialsError
  | aborted (calledExchange : Bool) (panel : ExchangePanel)
  | completed (run : MarketRun)

/--
The market flow (`src/streamlit_app.py` lines 175–224) after the button
click: credential presence check (Python falsiness of the key strings), LLM
call, currency extraction, conditional exchange-rate call and panel, then —
only if the panel did not raise — static ticker lookup and conditional
stock fetch.  `credentialsError` models the
`st.error("Please provide Groq and ExchangeRate API keys.")` branch, and
`aborted` the unhandled exception of line 207, which stops the script before
the `index_map` lookup of line 220.
-/
def marketFlow (env : MarketEnv) : MarketOutcome :=
  if env.groq_key = "" ∨ env.exchange_key = "" then
    .credentialsError
  else
    match extractCurrency env.llmInfo with
    | none =>
      .completed { calledExchange := false, panel := none,
                   stockTicker := tickerLookup env.country }
    | some _ =>
      if panelCrashes (showExchangePanel (get_exchange_rates env.exchangeOutcome)) then
        .aborted true (showExchangePanel (get_exchange_rates env.exchangeOutcome))
      else
        .completed
          { calledExchange := true
            panel := some (showExchangePanel (get_exchange_rates env.exchangeOutcome))
            stockTicker := tickerLookup env.country }

/-- Inputs and external behaviours the trip flow depends on: credentials,
the city/days/month inputs, the parsed JSON of the two weather calls, and
the LLM's trip plan (`llm_response` output). -/
structure TripEnv where
  groq_key : String
  weather_key : String
  city : String
  days : Nat
  month : String
  currentW : Jdict
  forecastW : Jdict
  llmPlan : String

/-- The three outbound calls the trip flow can issue. -/
inductive TripCall where
  | currentWeather
  | forecast
  | llm
deriving DecidableEq

/-- `current.get("cod") != 200` is false iff the `cod` field is present and
equals the number 200 (OpenWeather returns the string "404" on unknown
cities, which compares unequal to the int 200 in Python). -/
def codIs200 (current : Jdict) : Bool :=
  ((dictGet? current "cod").map (fun j =>
    match j with
    | .num x => x = (200 : ℚ)
    | _ => false)).getD false

/--
The ordered list of outbound calls one trip-flow run issues
(`src/streamlit_app.py` lines 121–156).  Both weather calls happen
unconditionally before the `cod` check:

    current = get_current_weather(city)
    forecast_data = get_forecast(city)
    if current.get("cod") != 200:
        st.error("City not found or weather API error.")
    else:
        ... plan = llm_response(prompt) ...
-/
def tripCalls (env : TripEnv) : List TripCall :=
  if env.groq_key = "" ∨ env.weather_key = "" then []
  else if codIs200 env.currentW then [.currentWeather, .forecast, .llm]
  else [.currentWeather, .forecast]

/-- One forecast entry is displayed when its `dt_txt` field contains the
substring `"12:00:00"` (`src/streamlit_app.py` line 140).  Forecast items
from the API are dicts carrying a string `dt_txt`; other shapes are modelled
as not matching. -/
def noonMark (item : Json) : Bool :=
  match item with
  | .obj fields =>
    match dictGet? fields "dt_txt" with
    | some (.str s) => decide ("12:00:00".data <:+: s.data)
    | _ => false
  | _ => false

/-- The `shown < days` counting loop of `src/streamlit_app.py`
lines 138–146. -/
def pickForecast (items : List Json) (shown days : Nat) : List Json :=
  match items with
  | [] => []
  | item :: rest =>
    if noonMark item ∧ shown < days then item :: pickForecast rest (shown + 1) days
    else pickForecast rest shown days

/-- What one trip-flow run displays (`src/streamlit_app.py` lines 121–165):
the missing-credentials error, the city-not-found error, or the planned
output (filtered forecast entries plus the LLM's plan). -/
inductive TripOutput where
  | credentialsError
  | cityError
  | planned (forecastShown : List Json) (plan : String)

def tripOutput (env : TripEnv) : TripOutput :=
  if env.groq_key = "" ∨ env.weather_key = "" then .credentialsError
  else if codIs200 env.currentW then
    .planned
      (pickForecast
        (match dictGet? env.forecastW "list" with
         | some (.arr items) => items
         | _ => []) 0 env.days)
      env.llmPlan
  else .cityError

/-- The sample success payload of the spec:
`{"result": "success", "conversion_rates": {"USD": 1.0, "INR": 83.2}}`. -/
def sampleSuccessPayload : Jdict :=
  [("result", Json.str "success"),
   ("conversion_rates", Json.obj [("USD", Json.num 1.0), ("INR", Json.num 83.2)])]

/-- A concrete trip-flow environment with both credentials present and a
current-weather payload whose `cod` is the string `"404"` (city not
found). -/
def tripEnvNotFound : TripEnv :=
  ⟨"g", "w", "Nowhereville", 3, "May",
   [("cod", Json.str "404")], [("list", Json.arr [])], "plan"⟩

/-! ## Helper lemmas -/

/-- A successful `find?` splits the list at the first hit: everything before
the returned element fails the predicate. -/
theorem find?_decomp {α : Type} (p : α → Bool) :
    ∀ (l : List α) (b : α), l.find? p = some b →
      p b = true ∧ ∃ l₁ l₂, l = l₁ ++ b :: l₂ ∧ ∀ v ∈ l₁, p v = false := by
  intro l
  induction l with
  | nil => intro b h; simp [List.find?] at h
  | cons a t ih =>
    intro b h
    by_cases hp : p a = true
    · rw [List.find?_cons_of_pos _ hp] at h
      obtain rfl : a = b := by injection h
      exact ⟨hp, [], t, rfl, by intro v hv; cases hv⟩
    · rw [List.find?_cons_of_neg _ (by simpa using hp)] at h
      obtain ⟨hb, l₁, l₂, rfl, hfail⟩ := ih b h
      refine ⟨hb, a :: l₁, l₂, rfl, ?_⟩
      intro v hv
      rcases List.mem_cons.mp hv with rfl | hv'
      · simpa using hp
      · exact hfail v hv'

theorem isStr_eq_true_iff (j : Json) (s : String) :
    j.isStr s = true ↔ j = Json.str s := by
  cases j <;> simp [Json.isStr]

/-- The branch condition of `get_exchange_rates` on the `result` field is
false exactly when the field is absent or differs from the string
`"success"`. -/
theorem result_cond_false {o : Option Json}
    (h : o ≠ some (Json.str "success")) :
    (o.map (fun j => j.isStr "success")).getD false = false := by
  cases o with
  | none => rfl
  | some j =>
    simp only [Option.map_some', Option.getD_some]
    cases hj : j.isStr "success"
    · rfl
    · exact absurd (congrArg some ((isStr_eq_true_iff j "success").mp hj)) h

theorem result_cond_true {o : Option Json}
    (h : o = some (Json.str "success")) :
    (o.map (fun j => j.isStr "success")).getD false = true := by
  subst h
  simp [Json.isStr]

theorem dictContains_eq_isSome (d : Jdict) (k : String) :
    dictContains d k = (dictGet? d k).isSome := by
  cases h : d.find? (fun p => p.1 = k) <;> simp [dictContains, dictGet?, h]

/-! ## Claim theorems -/

/-- C1: whenever the transport layer raises a network-level exception,
`get_exchange_rates` returns the `NetworkError` failure (encoded, as in the
source, by its fixed error dict), and no response is inspected: the
inspection trace is empty — no status check, no body read, no JSON parse. -/
theorem exchange_network_exception_gives_network_error :
    get_exchange_rates .exception = encodeFailure .NetworkError ∧
    exchangeTrace .exception = [] :=
  ⟨rfl, rfl⟩

/-- C2: for every received response whose status code is not 200,
`get_exchange_rates` returns the `HttpError` failure carrying that status
code, whatever the body and however it would parse, and the body is never
parsed. -/
theorem exchange_non_200_gives_http_error (r : Response)
    (h : r.status_code ≠ 200) :
    get_exchange_rates (.response r) = encodeFailure (.HttpError r.status_code) ∧
    FetchStep.parseBody ∉ exchangeTrace (.response r) := by
  constructor
  · simp [get_exchange_rates, encodeFailure, h]
  · simp [exchangeTrace, h]

theorem exchange_non_200_gives_http_error_witness :
    ((404 : Nat) ≠ 200) ∧
    (get_exchange_rates (.response ⟨404, "irrelevant body", some []⟩) =
        encodeFailure (.HttpError 404) ∧
      FetchStep.parseBody ∉ exchangeTrace (.response ⟨404, "irrelevant body", some []⟩)) :=
  ⟨by decide, exchange_non_200_gives_http_error ⟨404, "irrelevant body", some []⟩ (by decide)⟩

/-- C3: for every 200 response, a body that is empty after stripping
whitespace yields the `EmptyResponse` failure with the JSON parser never
invoked; a non-blank body whose parse fails yields `MalformedJson`; and in
every possible trace the emptiness check precedes the parse attempt. -/
theorem exchange_empty_before_parse (r : Response)
    (h200 : r.status_code = 200) :
    (pyStrip r.text = "" →
      get_exchange_rates (.response r) = encodeFailure .EmptyResponse ∧
      FetchStep.parseBody ∉ exchangeTrace (.response r)) ∧
    (pyStrip r.text ≠ "" → r.jsonParse = none →
      get_exchange_rates (.response r) = encodeFailure .MalformedJson) ∧
    (∀ o : HttpOutcome, FetchStep.parseBody ∈ exchangeTrace o →
      ∃ l₁ l₂, exchangeTrace o = l₁ ++ FetchStep.checkEmpty :: l₂ ∧
        FetchStep.parseBody ∈ l₂) := by
  refine ⟨?_, ?_, ?_⟩
  · intro hempty
    constructor
    · simp [get_exchange_rates, encodeFailure, h200, hempty]
    · simp [exchangeTrace, h200, hempty]
  · intro hne hparse
    simp [get_exchange_rates, encodeFailure, h200, hne, hparse]
  · intro o hmem
    match o with
    | .exception => cases hmem
    | .response r' =>
      by_cases hs : r'.status_code ≠ 200
      · simp [exchangeTrace, hs] at hmem
      · by_cases he : pyStrip r'.text = ""
        · simp [exchangeTrace, hs, he] at hmem
        · refine ⟨[FetchStep.checkStatus], FetchStep.parseBody ::
            (match r'.jsonParse with
             | none => []
             | some _ => [FetchStep.checkResultField]), ?_, ?_⟩
          · simp [exchangeTrace, hs, he]
          · exact List.mem_cons_self _ _

theorem exchange_empty_before_parse_witness :
    (get_exchange_rates (.response ⟨200, " \t ", some []⟩) =
        encodeFailure .EmptyResponse ∧
      FetchStep.parseBody ∉ exchangeTrace (.response ⟨200, " \t ", some []⟩)) ∧
    get_exchange_rates (.response ⟨200, "not json at all", none⟩) =
        encodeFailure .MalformedJson :=
  ⟨(exchange_empty_before_parse ⟨200, " \t ", some []⟩ rfl).1 rfl,
   (exchange_empty_before_parse ⟨200, "not json at all", none⟩ rfl).2.1
     (by decide) rfl⟩

/-- C4: for every 200 response with a non-blank body that parses to a payload
whose `result` field is not the literal string "success" (in particular when
the field is absent), `get_exchange_rates` returns the `ApiError` failure
whose message is the payload's `error-type` field when present and the
"Unknown API error" placeholder otherwise; concretely, the payload
`{"result": "error", "error-type": "unsupported-code"}` yields
`ApiError("unsupported-code")`. -/
theorem exchange_api_error_classification (r : Response) (data : Jdict)
    (h200 : r.status_code = 200) (hne : pyStrip r.text ≠ "")
    (hp : r.jsonParse = some data)
    (hres : dictGet? data "result" ≠ some (Json.str "success")) :
    get_exchange_rates (.response r) =
      encodeFailure (.ApiError
        ((dictGet? data "error-type").getD (Json.str "Unknown API error"))) ∧
    get_exchange_rates (.response ⟨200, "x",
        some [("result", Json.str "error"),
              ("error-type", Json.str "unsupported-code")]⟩) =
      encodeFailure (.ApiError (Json.str "unsupported-code")) := by
  constructor
  · simp [get_exchange_rates, encodeFailure, h200, hne, hp, result_cond_false hres]
  · rfl

theorem exchange_api_error_classification_witness :
    (get_exchange_rates (.response ⟨200, "x",
        some [("result", Json.str "error"),
              ("error-type", Json.str "unsupported-code")]⟩) =
      encodeFailure (.ApiError
        ((dictGet? [("result", Json.str "error"),
                    ("error-type", Json.str "unsupported-code")] "error-type").getD
          (Json.str "Unknown API error"))) ∧
    get_exchange_rates (.response ⟨200, "x",
        some [("result", Json.str "error"),
              ("error-type", Json.str "unsupported-code")]⟩) =
      encodeFailure (.ApiError (Json.str "unsupported-code"))) :=
  exchange_api_error_classification
    ⟨200, "x", some [("result", Json.str "error"),
                     ("error-type", Json.str "unsupported-code")]⟩
    [("result", Json.str "error"), ("error-type", Json.str "unsupported-code")]
    rfl (by decide) rfl
    (fun h => by
      rw [show dictGet? [("result", Json.str "error"),
            ("error-type", Json.str "unsupported-code")] "result" =
          some (Json.str "error") from rfl] at h
      injection h with h'
      exact absurd (Json.str.inj h') (by decide))

/-- C5: for every 200 response with a non-blank body parsing to a payload
whose `result` field is the string "success", `get_exchange_rates` returns
the full parsed payload; on the sample payload the caller's display step
extracts the `conversion_rates` sub-mapping and shows INR ↦ 83.2. -/
theorem exchange_success_returns_payload (r : Response) (data : Jdict)
    (h200 : r.status_code = 200) (hne : pyStrip r.text ≠ "")
    (hp : r.jsonParse = some data)
    (hres : dictGet? data "result" = some (Json.str "success")) :
    get_exchange_rates (.response r) = data ∧
    get_exchange_rates (.response ⟨200, "x", some sampleSuccessPayload⟩) =
      sampleSuccessPayload ∧
    showExchangePanel sampleSuccessPayload =
      .rates [("USD", some (Json.num 1.0)), ("INR", some (Json.num 83.2)),
              ("GBP", none), ("EUR", none)] := by
  refine ⟨?_, rfl, rfl⟩
  simp [get_exchange_rates, h200, hne, hp, result_cond_true hres]

theorem exchange_success_returns_payload_witness :
    get_exchange_rates (.response ⟨200, "x", some sampleSuccessPayload⟩) =
      sampleSuccessPayload ∧
    get_exchange_rates (.response ⟨200, "x", some sampleSuccessPayload⟩) =
      sampleSuccessPayload ∧
    showExchangePanel sampleSuccessPayload =
      .rates [("USD", some (Json.num 1.0)), ("INR", some (Json.num 83.2)),
              ("GBP", none), ("EUR", none)] :=
  exchange_success_returns_payload ⟨200, "x", some sampleSuccessPayload⟩
    sampleSuccessPayload rfl (by decide) rfl rfl

/-- C6, counterexample: on the input `"QQ1 INR"` the source extraction picks
`"QQ1"` (Python `isupper` is true on it: the digit is uncased), while the
first token made entirely of uppercase letters — what the claim promises —
is `"INR"`. -/
theorem currency_extraction_counterexample :
    extractCurrency "QQ1 INR" = some "QQ1" ∧
    specExtractCurrency "QQ1 INR" = some "INR" ∧
    extractCurrency "QQ1 INR" ≠ some "INR" :=
  ⟨rfl, rfl, by decide⟩

/-- C6 as amended: extraction scans the whitespace-delimited tokens in order
and returns the first token that is exactly 3 characters long and satisfies
Python `isupper` (no lowercase character and at least one cased character —
so e.g. `"QQ1"` also qualifies, not only all-letter tokens), or absence if no
such token exists; on the spec's sample sentence it returns "INR" and not
"BSE", and on absence the market flow skips the exchange-rate call
entirely. -/
theorem currency_extraction_amended :
    (∀ info w, extractCurrency info = some w →
      w.length = 3 ∧ pyIsUpper w = true ∧
      ∃ l₁ l₂, pySplit info = l₁ ++ w :: l₂ ∧
        ∀ v ∈ l₁, ¬(v.length = 3 ∧ pyIsUpper v = true)) ∧
    (∀ info, extractCurrency info = none →
      ∀ w ∈ pySplit info, ¬(w.length = 3 ∧ pyIsUpper w = true)) ∧
    extractCurrency "The official currency is INR and the main exchange is BSE" =
      some "INR" ∧
    (∀ env : MarketEnv, env.groq_key ≠ "" → env.exchange_key ≠ "" →
      extractCurrency env.llmInfo = none →
      marketFlow env = .completed
        { calledExchange := false, panel := none,
          stockTicker := tickerLookup env.country }) := by
  refine ⟨?_, ?_, rfl, ?_⟩
  · intro info w h
    obtain ⟨hpw, l₁, l₂, hsplit, hfail⟩ := find?_decomp _ (pySplit info) w h
    have hpw' : (w.length == 3) = true ∧ pyIsUpper w = true := by
      simpa [Bool.and_eq_true] using hpw
    refine ⟨?_, hpw'.2, l₁, l₂, hsplit, ?_⟩
    · simpa using hpw'.1
    · rintro v hv ⟨hlen, hup⟩
      have hf := hfail v hv
      simp [hlen, hup] at hf
  · intro info h w hw
    rintro ⟨hlen, hup⟩
    have := List.find?_eq_none.mp h w hw
    simp [hlen, hup] at this
  · intro env hg hw hnone
    simp [marketFlow, hg, hw, hnone]

theorem currency_extraction_amended_witness :
    marketFlow ⟨"g", "k", "France", "no currency code here", .exception⟩ =
      .completed { calledExchange := false, panel := none,
                   stockTicker := tickerLookup "France" } :=
  currency_extraction_amended.2.2.2
    ⟨"g", "k", "France", "no currency code here", .exception⟩
    (by decide) (by decide) rfl

/-- C7, counterexample: with both credentials present and a not-found
current-weather status, the source still issues the forecast request — both
weather calls happen before the `cod` check — so "no forecast request is
issued" fails (the user-facing error is reported and no LLM call is made,
but the forecast was already fetched). -/
theorem trip_forecast_fetched_despite_not_found :
    tripCalls tripEnvNotFound = [.currentWeather, .forecast] ∧
    TripCall.forecast ∈ tripCalls tripEnvNotFound ∧
    tripOutput tripEnvNotFound = .cityError :=
  ⟨rfl, by decide, rfl⟩

/-- C7 as amended: after both credentials are present, the current weather
and the forecast are both fetched up front, in that order, before any status
inspection; when the current-weather status is not 200 the flow reports the
city-not-found error and stops — in particular no LLM call is made — but the
forecast request has already been issued (its data is simply never
displayed). -/
theorem trip_not_found_stops_before_llm (env : TripEnv)
    (hg : env.groq_key ≠ "") (hw : env.weather_key ≠ "")
    (hnf : codIs200 env.currentW = false) :
    tripCalls env = [.currentWeather, .forecast] ∧
    TripCall.llm ∉ tripCalls env ∧
    tripOutput env = .cityError := by
  refine ⟨?_, ?_, ?_⟩
  · simp [tripCalls, hg, hw, hnf]
  · simp [tripCalls, hg, hw, hnf]
  · simp [tripOutput, hg, hw, hnf]

theorem trip_not_found_stops_before_llm_witness :
    tripCalls tripEnvNotFound = [.currentWeather, .forecast] ∧
    TripCall.llm ∉ tripCalls tripEnvNotFound ∧
    tripOutput tripEnvNotFound = .cityError :=
  trip_not_found_stops_before_llm tripEnvNotFound (by decide) (by decide) rfl

/-- C8: the static country-to-ticker lookup maps "Japan" to "^N225"; for
every country name absent from `index_map` the lookup yields nothing, and in
every market-flow run that reaches the stock section (a completed run — an
exchange-panel crash aborts the script before line 220, so aborted runs
fetch nothing by construction) the section fetches exactly what the lookup
yields — hence an unmapped country skips the section with no error (the
source has no error branch there: `if ticker:` simply falls through). -/
theorem ticker_lookup_japan_and_unmapped_skip :
    tickerLookup "Japan" = some "^N225" ∧
    (∀ c : String, (∀ p ∈ index_map, p.1 ≠ c) → tickerLookup c = none) ∧
    (∀ env : MarketEnv, ∀ run : MarketRun, marketFlow env = .completed run →
      run.stockTicker = tickerLookup env.country) := by
  refine ⟨rfl, ?_, ?_⟩
  · intro c hc
    unfold tickerLookup
    rw [List.find?_eq_none.mpr ?_]
    · rfl
    · intro p hp
      simpa using hc p hp
  · intro env run h
    unfold marketFlow at h
    by_cases hkeys : env.groq_key = "" ∨ env.exchange_key = ""
    · rw [if_pos hkeys] at h
      cases h
    · rw [if_neg hkeys] at h
      cases hx : extractCurrency env.llmInfo with
      | none =>
        rw [hx] at h
        injection h with h2
        subst h2
        rfl
      | some c =>
        rw [hx] at h
        by_cases hc : panelCrashes
            (showExchangePanel (get_exchange_rates env.exchangeOutcome)) = true
        · rw [if_pos hc] at h
          cases h
        · rw [if_neg hc] at h
          injection h with h2
          subst h2
          rfl

theorem ticker_lookup_japan_and_unmapped_skip_witness :
    tickerLookup "Atlantis" = none :=
  ticker_lookup_japan_and_unmapped_skip.2.1 "Atlantis" (by decide)

/-- C9, counterexample: the payload
`{"result": "success", "error": "boom"}` is a Success payload (its `result`
field is "success") lacking `conversion_rates`, yet the display step does
not raise the key lookup: the `"error" in rates` guard fires first and a
classified exchange-API error is shown instead. -/
theorem market_missing_rates_counterexample :
    dictGet? [("result", Json.str "success"), ("error", Json.str "boom")]
        "result" = some (Json.str "success") ∧
    dictGet? [("result", Json.str "success"), ("error", Json.str "boom")]
        "conversion_rates" = none ∧
    get_exchange_rates (.response ⟨200, "x",
        some [("result", Json.str "success"), ("error", Json.str "boom")]⟩) =
      [("result", Json.str "success"), ("error", Json.str "boom")] ∧
    showExchangePanel [("result", Json.str "success"), ("error", Json.str "boom")] =
      .apiError (Json.str "boom") ∧
    showExchangePanel [("result", Json.str "success"), ("error", Json.str "boom")] ≠
      .crashKeyError "conversion_rates" :=
  ⟨rfl, rfl, rfl, rfl, fun h => ExchangePanel.noConfusion h⟩

/-- C9 as amended: for every Success payload that lacks the
`conversion_rates` key and also carries no top-level "error" key, the market
flow's display step accesses `rates["conversion_rates"]` unguarded and
raises an unhandled `KeyError`, terminating the interaction instead of
surfacing a classified failure. -/
theorem market_missing_rates_crash (data : Jdict) (r : Response)
    (hres : dictGet? data "result" = some (Json.str "success"))
    (herr : dictGet? data "error" = none)
    (hcr : dictGet? data "conversion_rates" = none)
    (h200 : r.status_code = 200) (hne : pyStrip r.text ≠ "")
    (hp : r.jsonParse = some data) :
    showExchangePanel (get_exchange_rates (.response r)) =
      .crashKeyError "conversion_rates" := by
  have hdata : get_exchange_rates (.response r) = data := by
    simp [get_exchange_rates, h200, hne, hp, result_cond_true hres]
  rw [hdata]
  simp [showExchangePanel, dictContains_eq_isSome, herr, hcr]

theorem market_missing_rates_crash_witness :
    showExchangePanel (get_exchange_rates (.response
        ⟨200, "x", some [("result", Json.str "success")]⟩)) =
      .crashKeyError "conversion_rates" :=
  market_missing_rates_crash [("result", Json.str "success")]
    ⟨200, "x", some [("result", Json.str "success")]⟩
    rfl rfl rfl rfl (by decide) rfl

/-- C10: the market flow discriminates success from failure by the presence
of an "error" key in the returned dict; hence for every payload whose
`result` field is "success" but which also carries a top-level "error"
field, `get_exchange_rates` returns the payload itself and the flow then
shows the "error" field's value as an exchange-API error instead of the
rates. -/
theorem market_error_key_misclassifies_success (data : Jdict) (v : Json)
    (r : Response)
    (hres : dictGet? data "result" = some (Json.str "success"))
    (herr : dictGet? data "error" = some v)
    (h200 : r.status_code = 200) (hne : pyStrip r.text ≠ "")
    (hp : r.jsonParse = some data) :
    get_exchange_rates (.response r) = data ∧
    showExchangePanel (get_exchange_rates (.response r)) = .apiError v := by
  have hdata : get_exchange_rates (.response r) = data := by
    simp [get_exchange_rates, h200, hne, hp, result_cond_true hres]
  refine ⟨hdata, ?_⟩
  rw [hdata]
  simp [showExchangePanel, dictContains_eq_isSome, herr]

theorem market_error_key_misclassifies_success_witness :
    get_exchange_rates (.response ⟨200, "x",
        some [("result", Json.str "success"), ("error", Json.str "hiccup"),
              ("conversion_rates", Json.obj [("USD", Json.num 1.0)])]⟩) =
      [("result", Json.str "success"), ("error", Json.str "hiccup"),
       ("conversion_rates", Json.obj [("USD", Json.num 1.0)])] ∧
    showExchangePanel (get_exchange_rates (.response ⟨200, "x",
        some [("result", Json.str "success"), ("error", Json.str "hiccup"),
              ("conversion_rates", Json.obj [("USD", Json.num 1.0)])]⟩)) =
      .apiError (Json.str "hiccup") :=
  market_error_key_misclassifies_success
    [("result", Json.str "success"), ("error", Json.str "hiccup"),
     ("conversion_rates", Json.obj [("USD", Json.num 1.0)])]
    (Json.str "hiccup")
    ⟨200, "x", some [("result", Json.str "success"), ("error", Json.str "hiccup"),
                     ("conversion_rates", Json.obj [("USD", Json.num 1.0)])]⟩
    rfl rfl rfl (by decide) rfl
